import Mathlib

/-!
Verification of the control facade in `src/control/control.go` (package
`control` of the snap/pulse telemetry framework).

The file shallowly embeds the control-plane logic of `control.go`: the
plugin-lifecycle facade operations (`Load`, `Unload`, `SwapPlugins`), the
subscription operations (`SubscribeMetricType`, `SubscribePublisher`,
`UnsubscribeMetricType`) and the concurrent collection dispatcher
(`CollectMetrics` with its helpers `groupMetricTypesByPlugin`, `getPool`,
`getAvailablePlugin`).

Collaborators whose implementation is not part of `control.go` (the plugin
manager, the metric catalog internals, the available-plugin pools, the RPC
clients, the routing strategy) are modelled either as response functions
carried in the state (the most general reading: the theorems quantify over
every behaviour of the collaborator) or, where a claim needs their state
effect, as definitions marked "Modelled from the spec".

Go slices are Lean lists (a nil slice is `[]`), Go errors are strings,
a Go `(value, error)` pair is `Except` or an explicit pair, and each
facade method is a function from the receiver state to a result record
carrying the returned value, the successor state and the events emitted
via the `gomit` event manager.
-/

namespace Control

/-- Go errors surface only through their message string (`errors.New`). -/
abbrev Err := String

/-- A metric namespace: the ordered segments of `[]string` in Go. -/
abbrev Namespace := List String

/-- A collected metric value (`core.Metric`); its payload is opaque to the
dispatcher, so it is modelled as a string. -/
abbrev Metric := String

/-- A requested metric (`core.MetricType`): namespace plus version, where
version `-1` means "latest". -/
structure MetricRequest where
  ns : Namespace
  ver : Int
deriving DecidableEq, Repr

/-- A raw or normalized config-data table (`cdata.ConfigDataNode.Table()` /
`ctypes.ConfigValue` maps), kept abstract as a list of key-value pairs. -/
abbrev ConfigTable := List (String × String)

/-- A loaded plugin handle (`loadedPlugin`): identity is name plus version.
`configPolicy` is the `Process` function of the config-policy node the
plugin declares for itself (`lp.ConfigPolicyTree.Get([]string{""})`);
it returns the normalized table and the error list.
Modelled from the spec: the config-policy validator
(`Process(rawConfigTable) -> (normalizedTable, errorList)`) lives outside
`control.go`, so it is carried as an arbitrary response function. -/
structure LoadedPlugin where
  name : String
  version : Int
  configPolicy : ConfigTable → ConfigTable × List Err

/-- The stable plugin key `name:version` (`loadedPlugin.Key()`). -/
def LoadedPlugin.Key (lp : LoadedPlugin) : String :=
  lp.name ++ ":" ++ toString lp.version

/-- The loaded-plugins table of the plugin manager
(`pluginManager.LoadedPlugins()`), in iteration order. -/
abbrev Registry := List LoadedPlugin

/-- Outcomes of the process-supervisor collaborator behind
`managesPlugins`: whether loading a path succeeds and with which handle,
and whether unloading a handle succeeds.  The theorems quantify over every
oracle, so every collaborator behaviour is covered. -/
structure LifecycleOracle where
  loadOutcome : String → Except Err LoadedPlugin
  unloadOutcome : LoadedPlugin → Option Err

/-- Modelled from the spec: `pluginManager.LoadPlugin` (its implementation
is not under `src/`).  On success the returned handle is registered in the
loaded-plugins table; on failure there is no partial registration, the
table is unchanged and the error is surfaced verbatim. -/
def loadPlugin (o : LifecycleOracle) (path : String) (reg : Registry) :
    Except Err (LoadedPlugin × Registry) :=
  match o.loadOutcome path with
  | .error e => .error e
  | .ok lp => .ok (lp, lp :: reg)

/-- Modelled from the spec: `pluginManager.UnloadPlugin` (its
implementation is not under `src/`).  On success the registry entry for
the plugin key is removed; on failure the table is unchanged and the
error is surfaced verbatim. -/
def unloadPlugin (o : LifecycleOracle) (pl : LoadedPlugin) (reg : Registry) :
    Except Err Registry :=
  match o.unloadOutcome pl with
  | some e => .error e
  | none => .ok (reg.filter (fun q => q.Key != pl.Key))

/-- A metric-catalog record (`metricType`): namespace, version, the
declared config-policy `Process` function, the resolved config set on a
successful subscription, and the subscription counter. -/
structure MetricTypeRec where
  ns : Namespace
  version : Int
  policy : ConfigTable → ConfigTable × List Err
  config : Option ConfigTable
  subscriptions : Nat

/-- The metric catalog's stored records, in insertion order. -/
abbrev Catalog := List MetricTypeRec

/-- Index (into the catalog list) and version of the highest-version
record for a namespace; `none` when no record has that namespace. -/
def bestIdx (ns : Namespace) : Catalog → Option (Nat × Int)
  | [] => none
  | m :: rest =>
    let r := (bestIdx ns rest).map (fun p => (p.1 + 1, p.2))
    if m.ns == ns then
      match r with
      | some (j, vj) => if vj > m.version then some (j, vj) else some (0, m.version)
      | none => some (0, m.version)
    else r

/-- Modelled from the spec: resolution used by the Metric Catalog's `Get`,
`Subscribe` and `Unsubscribe` (the catalog implementation is not under
`src/`): version `-1` resolves to the highest known version for the
namespace, any other version must match exactly; the result is the index
of the resolved record. -/
def catalogFindIdx (cat : Catalog) (ns : Namespace) (ver : Int) : Option Nat :=
  if ver = -1 then (bestIdx ns cat).map (fun p => p.1)
  else cat.findIdx? (fun m => m.ns == ns && m.version == ver)

/-- Modelled from the spec: the Metric Catalog's `Unsubscribe` (the
catalog implementation is not under `src/`): it resolves the record and
decrements its counter; decrementing a zero counter is the invariant
violation the catalog signals as an error. -/
def catUnsubscribe (cat : Catalog) (ns : Namespace) (ver : Int) :
    Except Err Catalog :=
  match catalogFindIdx cat ns ver with
  | none => .error "metric not found"
  | some i =>
    match cat[i]? with
    | none => .error "metric not found"
    | some m =>
      if m.subscriptions = 0 then
        .error "subscription count cannot fall below zero"
      else .ok (cat.set i { m with subscriptions := m.subscriptions - 1 })

/-- Notification events emitted through `p.eventManager.Emit`
(`control_event` package). -/
inductive Event where
  | LoadPluginEvent
  | UnloadPluginEvent
  | SwapPluginsEvent
  | MetricSubscriptionEvent (ns : Namespace) (version : Int)
  | MetricUnsubscriptionEvent (ns : Namespace)
  | PublisherSubscriptionEvent (name : String) (version : Int)
deriving DecidableEq, Repr

/-- The RPC-capable client handle of a running plugin instance
(`availablePlugin.Client`).  The collection path type-asserts it to
`client.PluginCollectorClient`; its `CollectMetrics` returns a metric
slice and an error (both values, as in Go). -/
inductive ClientHandle where
  | collector (collect : List MetricRequest → List Metric × Option Err)
  | publisher (publish : Option Err)
  | other

/-- A running plugin instance (`availablePlugin`): its client handle and
usage statistics. -/
structure AvailablePlugin where
  client : ClientHandle
  hitCount : Nat

/-- A pool of running instances sharing one plugin key
(`availablePluginPool`). -/
structure AvailablePluginPool where
  plugins : List AvailablePlugin

/-- `availablePluginPool.Count()`. -/
def AvailablePluginPool.Count (p : AvailablePluginPool) : Nat :=
  p.plugins.length

/-- The Collectors and Publishers pool indices
(`runner.AvailablePlugins()`), keyed by `name:version`; `none` models a
missing pool. -/
structure AvailablePlugins where
  Collectors : String → Option AvailablePluginPool
  Publishers : String → Option AvailablePluginPool

/-- The routing strategy: `pool.SelectUsingStrategy(strategy)` returns a
selected instance, no instance, or an error.  The pool and strategy
implementations are not under `src/`, so the selection is an arbitrary
response function and the theorems hold for every strategy. -/
abbrev RoutingStrategy := AvailablePluginPool → Except Err (Option AvailablePlugin)

/-- The facade state (`pluginControl`): the started flag, the
loaded-plugins table, the metric catalog, the collaborator oracles, the
catalog's `GetPlugin` view used for grouping (its implementation is not
under `src/`; an arbitrary response function, so the theorems hold for
every catalog behaviour), the pool set and the routing strategy. -/
structure PluginControl where
  Started : Bool
  registry : Registry
  catalog : Catalog
  oracle : LifecycleOracle
  getPluginView : Namespace → Int → Except Err (Option LoadedPlugin)
  availablePlugins : AvailablePlugins
  strategy : RoutingStrategy

/-- Result of a lifecycle facade call: the returned error, the successor
facade state and the emitted events. -/
structure OpResult where
  err : Option Err
  ctl : PluginControl
  events : List Event

/-- Result of `SubscribeMetricType`: the returned metric (with config),
the returned error list, the successor state and the emitted events. -/
structure SubResult where
  metric : Option MetricTypeRec
  errs : List Err
  ctl : PluginControl
  events : List Event

/-- Result of `SubscribePublisher`: the returned error list, the
successor state and the emitted events. -/
structure PubResult where
  errs : List Err
  ctl : PluginControl
  events : List Event

/-- Result of `UnsubscribeMetricType` (which returns nothing in Go):
`fatal` records the message of the Go `panic` taken when the catalog
signals an unsubscribe error; otherwise the call completes. -/
structure UnsubResult where
  fatal : Option Err
  ctl : PluginControl
  events : List Event

/-- `pluginControl.Load` (control.go:137-151): refuses when the controller
is not started; otherwise delegates to `pluginManager.LoadPlugin` and
emits `LoadPluginEvent` only on success. -/
def Load (pc : PluginControl) (path : String) : OpResult :=
  if !pc.Started then
    ⟨some "Must start Controller before calling Load()", pc, []⟩
  else
    match loadPlugin pc.oracle path pc.registry with
    | .error e => ⟨some e, pc, []⟩
    | .ok (_, reg1) => ⟨none, { pc with registry := reg1 }, [.LoadPluginEvent]⟩

/-- `pluginControl.Unload` (control.go:153-162): delegates to
`pluginManager.UnloadPlugin` (no started check in the source) and emits
`UnloadPluginEvent` only on success. -/
def Unload (pc : PluginControl) (pl : LoadedPlugin) : OpResult :=
  match unloadPlugin pc.oracle pl pc.registry with
  | .error e => ⟨some e, pc, []⟩
  | .ok reg1 => ⟨none, { pc with registry := reg1 }, [.UnloadPluginEvent]⟩

/-- `pluginControl.SwapPlugins` (control.go:164-184): loads the new plugin
first; when unloading the old one then fails it unloads the just-loaded
plugin as a rollback; when the rollback also fails the two messages are
concatenated into one error; `SwapPluginsEvent` is emitted only on full
success. -/
def SwapPlugins (pc : PluginControl) (inPath : String) (out : LoadedPlugin) : OpResult :=
  match loadPlugin pc.oracle inPath pc.registry with
  | .error e => ⟨some e, pc, []⟩
  | .ok (lp, reg1) =>
    match unloadPlugin pc.oracle out reg1 with
    | .error e =>
      match unloadPlugin pc.oracle lp reg1 with
      | .error e2 =>
        ⟨some ("failed to rollback after error" ++ e2 ++ " -- " ++ e),
          { pc with registry := reg1 }, []⟩
      | .ok reg2 => ⟨some e, { pc with registry := reg2 }, []⟩
    | .ok reg2 => ⟨none, { pc with registry := reg2 }, [.SwapPluginsEvent]⟩

/-- `pluginControl.SubscribeMetricType` (control.go:189-219): resolves the
metric (a failed or empty lookup returns the error list), processes the
supplied config data through the metric's policy, and only when the
policy reports no errors attaches the normalized config, increments the
subscription counter and emits `MetricSubscriptionEvent` with the
resolved namespace and version. -/
def SubscribeMetricType (pc : PluginControl) (mt : MetricRequest) (cd : ConfigTable) :
    SubResult :=
  match catalogFindIdx pc.catalog mt.ns mt.ver with
  | none => ⟨none, ["metric not found"], pc, []⟩
  | some i =>
    match pc.catalog[i]? with
    | none => ⟨none, ["no metric found cannot subscribe"], pc, []⟩
    | some m =>
      let (ncdTable, errs) := m.policy cd
      if errs.isEmpty then
        let m1 : MetricTypeRec :=
          { m with config := some ncdTable, subscriptions := m.subscriptions + 1 }
        ⟨some m1, [], { pc with catalog := pc.catalog.set i m1 },
          [.MetricSubscriptionEvent m.ns m.version]⟩
      else ⟨none, errs, pc, []⟩

/-- Last loaded plugin matching `name` and `ver` in table iteration order
(the loop in control.go:229-234 keeps overwriting `lp`). -/
def findLastLoaded (reg : Registry) (name : String) (ver : Int) : Option LoadedPlugin :=
  reg.foldl (fun acc l => if l.name == name && l.version == ver then some l else acc) none

/-- `pluginControl.SubscribePublisher` (control.go:222-256): looks up the
loaded plugin, validates the config against the plugin's declared policy
and emits `PublisherSubscriptionEvent` on success; it stores no
subscription state (the source marks publisher subscription counts as a
TODO). -/
def SubscribePublisher (pc : PluginControl) (name : String) (ver : Int)
    (config : ConfigTable) : PubResult :=
  match findLastLoaded pc.registry name ver with
  | none => ⟨["No loaded plugin found for publisher name: " ++ name], pc, []⟩
  | some lp =>
    let (_, errs) := lp.configPolicy config
    if errs.isEmpty then ⟨[], pc, [.PublisherSubscriptionEvent name ver]⟩
    else ⟨errs, pc, []⟩

/-- `pluginControl.UnsubscribeMetricType` (control.go:260-271): asks the
catalog to decrement the counter; a catalog error is re-raised as a Go
panic (recorded in `fatal`, with no event emitted), otherwise
`MetricUnsubscriptionEvent` is emitted. -/
def UnsubscribeMetricType (pc : PluginControl) (mt : MetricRequest) : UnsubResult :=
  match catUnsubscribe pc.catalog mt.ns mt.ver with
  | .error e => ⟨some e, pc, []⟩
  | .ok cat1 => ⟨none, { pc with catalog := cat1 }, [.MetricUnsubscriptionEvent mt.ns]⟩

/-- Tuple of a loaded plugin and the metric types grouped under it
(`pluginMetricTypes`). -/
structure PluginMetricTypes where
  plugin : Option LoadedPlugin
  metricTypes : List MetricRequest

/-- The grouped request map of `groupMetricTypesByPlugin`, as an
association list in first-insertion key order (Go map iteration order is
unspecified; the claims settled here do not depend on it). -/
abbrev GroupedRequests := List (String × PluginMetricTypes)

/-- One update of the grouped map (`pmts[key] = pmt` after appending the
metric type, control.go:465-471). -/
def insertGrouped (pmts : GroupedRequests) (key : String) (lp : LoadedPlugin)
    (mt : MetricRequest) : GroupedRequests :=
  match pmts with
  | [] => [(key, ⟨some lp, [mt]⟩)]
  | (k, p) :: rest =>
    if k = key then (k, ⟨some lp, p.metricTypes ++ [mt]⟩) :: rest
    else (k, p) :: insertGrouped rest key lp mt

/-- Worker loop of `groupMetricTypesByPlugin` (control.go:451-473): for
each requested metric the owning plugin is resolved with version `-1`; a
lookup error or a nil plugin aborts the whole grouping with that error. -/
def groupGo (view : Namespace → Int → Except Err (Option LoadedPlugin))
    (acc : GroupedRequests) : List MetricRequest → Except Err GroupedRequests
  | [] => .ok acc
  | mt :: rest =>
    match view mt.ns (-1) with
    | .error e => .error e
    | .ok none => .error ("Metric missing: " ++ String.intercalate "/" mt.ns)
    | .ok (some lp) => groupGo view (insertGrouped acc lp.Key lp mt) rest

/-- `groupMetricTypesByPlugin` (control.go:448-475). -/
def groupMetricTypesByPlugin (view : Namespace → Int → Except Err (Option LoadedPlugin))
    (metricTypes : List MetricRequest) : Except Err GroupedRequests :=
  groupGo view [] metricTypes

/-- `getPool` (control.go:478-493): a missing Collectors pool or an empty
pool is an error naming the plugin key. -/
def getPool (pluginKey : String) (aps : AvailablePlugins) :
    Except Err AvailablePluginPool :=
  match aps.Collectors pluginKey with
  | none => .error ("no available plugins for plugin type (" ++ pluginKey ++ ")")
  | some pool =>
    if pool.Count = 0 then
      .error ("there is no availablePlugins in pool (" ++ pluginKey ++ ")")
    else .ok pool

/-- `getAvailablePlugin` (control.go:496-509): selection through the
routing strategy; a strategy error or a nil selection is an error. -/
def getAvailablePlugin (pool : AvailablePluginPool) (strategy : RoutingStrategy) :
    Except Err AvailablePlugin :=
  match strategy pool with
  | .error e => .error e
  | .ok none => .error "no available plugin selected in pool"
  | .ok (some ap) => .ok ap

/-- What one plugin group contributes to the call: either an error
recorded synchronously in the dispatch loop (pool resolution, instance
selection or the client type assertion failing, control.go:345-365), or a
dispatched remote invocation carrying the metric slice and error the
client returned (control.go:370-377). -/
inductive GroupOutcome where
  | stageErr (e : Err)
  | dispatched (rpcMetrics : List Metric) (rpcErr : Option Err)
deriving Repr

/-- The error a group outcome contributes, if any. -/
def GroupOutcome.errOf : GroupOutcome → Option Err
  | .stageErr e => some e
  | .dispatched _ re => re

/-- The dispatch loop of `CollectMetrics` (control.go:343-382), group by
group: resolve the pool, select an instance, type-assert the client and
invoke its `CollectMetrics`; each stage failure records its error for
that group and `continue`s with the next group. -/
def collectLoop (pc : PluginControl) : GroupedRequests → List GroupOutcome
  | [] => []
  | g :: rest =>
    match getPool g.1 pc.availablePlugins with
    | .error e => .stageErr e :: collectLoop pc rest
    | .ok pool =>
      match getAvailablePlugin pool pc.strategy with
      | .error e => .stageErr e :: collectLoop pc rest
      | .ok ap =>
        match ap.client with
        | .collector collect =>
          let r := collect g.2.metricTypes
          .dispatched r.1 r.2 :: collectLoop pc rest
        | _ => .stageErr "unable to cast client to PluginCollectorClient" :: collectLoop pc rest

/-- The contribution of one group on its own (same stages as one
iteration of `collectLoop`). -/
def processGroup (pc : PluginControl) (g : String × PluginMetricTypes) : GroupOutcome :=
  match getPool g.1 pc.availablePlugins with
  | .error e => .stageErr e
  | .ok pool =>
    match getAvailablePlugin pool pc.strategy with
    | .error e => .stageErr e
    | .ok ap =>
      match ap.client with
      | .collector collect =>
        let r := collect g.2.metricTypes
        .dispatched r.1 r.2
      | _ => .stageErr "unable to cast client to PluginCollectorClient"

/-- Fan-in of `CollectMetrics` (control.go:370-400) under the sequential
schedule in which each dispatched unit runs to completion and its channel
message is consumed before the next unit runs.  Each dispatched goroutine
first executes `metrics, err = cli.CollectMetrics(mt)` (control.go:371),
which overwrites the enclosing call's shared named-return variable
`metrics` with the unit's own slice; it then sends either the error on
`cError` or the slice on `cMetrics`, and the aggregator goroutines append
the received value to the same shared variables (control.go:384-396).
So under this schedule a successful unit leaves the shared slice holding
its result twice (the direct write plus the aggregator's append), and a
failed unit leaves the shared slice holding whatever slice the client
returned beside the error.  The shared-variable write is the data-race
hazard section 9 of the design document flags in this dispatcher. -/
def aggregate : List GroupOutcome → List Metric → List Err → List Metric × List Err
  | [], metrics, errs => (metrics, errs)
  | .stageErr e :: rest, metrics, errs => aggregate rest metrics (errs ++ [e])
  | .dispatched rm (some e) :: rest, _metrics, errs => aggregate rest rm (errs ++ [e])
  | .dispatched rm none :: rest, _metrics, errs => aggregate rest (rm ++ rm) errs

/-- `pluginControl.CollectMetrics` (control.go:327-406): group the request
by owning plugin (a grouping error returns immediately with that single
error), run the dispatch loop, aggregate, and return no metrics at all
whenever the error list is non-empty.  The `deadline` parameter is
accepted and, as in the source, never read. -/
def CollectMetrics (pc : PluginControl) (metricTypes : List MetricRequest)
    (deadline : Nat) : List Metric × List Err :=
  match groupMetricTypesByPlugin pc.getPluginView metricTypes with
  | .error e => ([], [e])
  | .ok groups =>
    let r := aggregate (collectLoop pc groups) [] []
    if r.2.length > 0 then ([], r.2) else r

/-- Whether the collection of `mts` records an error at any stage under
state `pc`: the grouping aborts, or some group's pool resolution,
instance selection, client assertion or remote invocation fails. -/
def collectionHasError (pc : PluginControl) (mts : List MetricRequest) : Bool :=
  match groupMetricTypesByPlugin pc.getPluginView mts with
  | .error _ => true
  | .ok gs => gs.any fun g => ((processGroup pc g).errOf).isSome

/-- Whether the owning-plugin lookup for one requested metric fails
(an error or a nil plugin, the two abort conditions of
control.go:454-461). -/
def getPluginFails (view : Namespace → Int → Except Err (Option LoadedPlugin))
    (mt : MetricRequest) : Bool :=
  match view mt.ns (-1) with
  | .error _ => true
  | .ok none => true
  | .ok (some _) => false

/-- The catalog record a successful subscription stores: the normalized
config attached and the subscription counter incremented
(control.go:209-211). -/
def subscribedRec (m : MetricTypeRec) (ncd : ConfigTable) : MetricTypeRec :=
  { m with config := some ncd, subscriptions := m.subscriptions + 1 }

/-- Observable part of an `OpResult`: everything but the started flag of
the successor state. -/
def OpResult.obs (r : OpResult) : Option Err × Registry × Catalog × List Event :=
  (r.err, r.ctl.registry, r.ctl.catalog, r.events)

/-- Observable part of a `SubResult`. -/
def SubResult.obs (r : SubResult) :
    Option MetricTypeRec × List Err × Registry × Catalog × List Event :=
  (r.metric, r.errs, r.ctl.registry, r.ctl.catalog, r.events)

/-- Observable part of a `PubResult`. -/
def PubResult.obs (r : PubResult) : List Err × Registry × Catalog × List Event :=
  (r.errs, r.ctl.registry, r.ctl.catalog, r.events)

/-- Observable part of an `UnsubResult`. -/
def UnsubResult.obs (r : UnsubResult) : Option Err × Registry × Catalog × List Event :=
  (r.fatal, r.ctl.registry, r.ctl.catalog, r.events)

/-- A config policy accepting every table unchanged. -/
def passPolicy : ConfigTable → ConfigTable × List Err := fun t => (t, [])

/-- A config policy rejecting every table. -/
def rejectPolicy : ConfigTable → ConfigTable × List Err := fun t => (t, ["invalid config"])

/-- A pool set with no pools at all. -/
def noPools : AvailablePlugins := ⟨fun _ => none, fun _ => none⟩

/-- A strategy selecting the first pool member. -/
def headStrategy : RoutingStrategy := fun pool => .ok pool.plugins.head?

/-- A `GetPlugin` view owning no metric. -/
def noView : Namespace → Int → Except Err (Option LoadedPlugin) := fun _ _ => .ok none

/-- A lifecycle oracle whose loads fail and whose unloads succeed. -/
def idleOracle : LifecycleOracle := ⟨fun _ => .error "no load", fun _ => none⟩

/-- Concrete loaded plugin for the started-flag counterexample. -/
def cexPlugin : LoadedPlugin := ⟨"dummy", 1, passPolicy⟩

/-- Concrete facade state that is NOT started, with `cexPlugin` loaded
and a supervisor whose unloads succeed. -/
def cexCtl : PluginControl :=
  ⟨false, [cexPlugin], [], idleOracle, noView, noPools, headStrategy⟩

/-- The old plugin of the concrete swap scenario. -/
def swapOut : LoadedPlugin := ⟨"a", 1, passPolicy⟩

/-- The new plugin of the concrete swap scenario. -/
def swapIn : LoadedPlugin := ⟨"b", 1, passPolicy⟩

/-- Oracle of the concrete swap scenario: every load yields `swapIn`,
unloading the plugin named "a" fails, any other unload succeeds. -/
def swapOracle : LifecycleOracle :=
  ⟨fun _ => .ok swapIn, fun q => if q.name = "a" then some "unload failed" else none⟩

/-- Concrete facade state for the swap-rollback scenario. -/
def swapCtl : PluginControl :=
  ⟨true, [swapOut], [], swapOracle, noView, noPools, headStrategy⟩

/-- Concrete catalog record whose policy rejects every config. -/
def subMetric : MetricTypeRec := ⟨["cpu"], 1, rejectPolicy, none, 0⟩

/-- Concrete facade state for the subscription scenario. -/
def subCtl : PluginControl :=
  ⟨true, [], [subMetric], idleOracle, noView, noPools, headStrategy⟩

/-- Concrete running collector instance returning the single metric
value "m1". -/
def raceCollector : AvailablePlugin := ⟨.collector (fun _ => (["m1"], none)), 0⟩

/-- Concrete plugin owning the requested metric in the dispatch
scenario. -/
def racePlugin : LoadedPlugin := ⟨"tempcol", 2, passPolicy⟩

/-- Concrete facade state with one healthy collector instance for plugin
key "tempcol:2" owning every metric. -/
def raceCtl : PluginControl :=
  ⟨true, [racePlugin], [], idleOracle,
   fun _ _ => .ok (some racePlugin),
   ⟨fun k => if k = "tempcol:2" then some ⟨[raceCollector]⟩ else none, fun _ => none⟩,
   headStrategy⟩

/-! ## Helper lemmas -/

/-- One iteration of the dispatch loop contributes exactly the
standalone outcome of its own group. -/
theorem collectLoop_cons (pc : PluginControl) (g : String × PluginMetricTypes)
    (rest : GroupedRequests) :
    collectLoop pc (g :: rest) = processGroup pc g :: collectLoop pc rest := by
  cases h1 : getPool g.1 pc.availablePlugins with
  | error e => simp [collectLoop, processGroup, h1]
  | ok pool =>
    cases h2 : getAvailablePlugin pool pc.strategy with
    | error e => simp [collectLoop, processGroup, h1, h2]
    | ok ap =>
      cases h3 : ap.client with
      | collector collect => simp [collectLoop, processGroup, h1, h2, h3]
      | publisher p => simp [collectLoop, processGroup, h1, h2, h3]
      | other => simp [collectLoop, processGroup, h1, h2, h3]

/-- The dispatch loop is the map of the standalone per-group
contribution: no group's processing depends on its siblings. -/
theorem collectLoop_eq_map (pc : PluginControl) (gs : GroupedRequests) :
    collectLoop pc gs = gs.map (processGroup pc) := by
  induction gs with
  | nil => rfl
  | cons g rest ih => rw [collectLoop_cons, ih, List.map_cons]

/-- The error list the fan-in produces is the initial list followed by
the errors of the outcomes, in order. -/
theorem aggregate_snd (outs : List GroupOutcome) :
    ∀ m0 e0, (aggregate outs m0 e0).2 = e0 ++ outs.filterMap GroupOutcome.errOf := by
  induction outs with
  | nil => intro m0 e0; simp [aggregate]
  | cons o rest ih =>
    intro m0 e0
    cases o with
    | stageErr e =>
      simp [aggregate, ih, GroupOutcome.errOf, List.filterMap_cons]
    | dispatched rm re =>
      cases re with
      | some e => simp [aggregate, ih, GroupOutcome.errOf, List.filterMap_cons]
      | none => simp [aggregate, ih, GroupOutcome.errOf, List.filterMap_cons]

/-- The grouping worker aborts with an error exactly when the
owning-plugin lookup fails for some requested metric, whatever has been
grouped so far. -/
theorem groupGo_error_iff (view : Namespace → Int → Except Err (Option LoadedPlugin))
    (mts : List MetricRequest) :
    ∀ acc, (∃ e, groupGo view acc mts = .error e) ↔
      ∃ mt ∈ mts, getPluginFails view mt = true := by
  induction mts with
  | nil => intro acc; simp [groupGo]
  | cons mt rest ih =>
    intro acc
    cases h : view mt.ns (-1) with
    | error e => simp [groupGo, h, getPluginFails]
    | ok o =>
      cases o with
      | none => simp [groupGo, h, getPluginFails]
      | some lp =>
        simp only [groupGo, h]
        rw [ih]
        simp [getPluginFails, h]

/-- A list of outcomes yields a non-empty error list exactly when some
outcome carries an error. -/
theorem errOf_filterMap_ne_nil_iff (gs : List GroupOutcome) :
    gs.filterMap GroupOutcome.errOf ≠ [] ↔
      (gs.any fun o => (o.errOf).isSome) = true := by
  induction gs with
  | nil => simp
  | cons o rest ih =>
    cases ho : o.errOf with
    | none => simp [List.filterMap_cons, ho, ih]
    | some e => simp [List.filterMap_cons, ho]

/-- Canonical form of `CollectMetrics`: a grouping error is returned
alone; otherwise the call returns the aggregated metrics with no errors
when no group recorded an error, and no metrics with the recorded errors
otherwise. -/
theorem collectMetrics_eq (pc : PluginControl) (mts : List MetricRequest) (dl : Nat) :
    CollectMetrics pc mts dl =
      match groupMetricTypesByPlugin pc.getPluginView mts with
      | .error e => ([], [e])
      | .ok groups =>
        if h : (groups.map (processGroup pc)).filterMap GroupOutcome.errOf = [] then
          ((aggregate (collectLoop pc groups) [] []).1, [])
        else ([], (groups.map (processGroup pc)).filterMap GroupOutcome.errOf) := by
  unfold CollectMetrics
  cases hg : groupMetricTypesByPlugin pc.getPluginView mts with
  | error e => rfl
  | ok groups =>
    have hsnd : (aggregate (collectLoop pc groups) [] []).2
        = (groups.map (processGroup pc)).filterMap GroupOutcome.errOf := by
      rw [aggregate_snd, collectLoop_eq_map]
      simp
    simp only []
    cases hE : (groups.map (processGroup pc)).filterMap GroupOutcome.errOf with
    | nil =>
      rw [hsnd, hE]
      simp only [List.length_nil, gt_iff_lt, lt_self_iff_false, if_false, dif_pos]
      exact Prod.ext rfl (by rw [hsnd, hE])
    | cons e es =>
      rw [hsnd, hE]
      simp

/-! ## Claim theorems -/

/-- C1: For every call to `CollectMetrics`, the returned metrics and the
returned error list are mutually exclusive: whenever the returned error
list is non-empty the metrics are nil, and the pair (nil metrics,
non-empty errors) is returned exactly when an error is recorded at some
stage (grouping, pool resolution, instance selection, client assertion
or remote invocation), even when other plugin groups produced metrics
successfully; metrics are returned only when the error list is empty. -/
theorem collectMetrics_fail_closed (pc : PluginControl) (mts : List MetricRequest)
    (dl : Nat) :
    ((CollectMetrics pc mts dl).2 ≠ [] → (CollectMetrics pc mts dl).1 = []) ∧
    (((CollectMetrics pc mts dl).1 = [] ∧ (CollectMetrics pc mts dl).2 ≠ []) ↔
      collectionHasError pc mts = true) := by
  rw [collectMetrics_eq]
  unfold collectionHasError
  cases hg : groupMetricTypesByPlugin pc.getPluginView mts with
  | error e => simp
  | ok groups =>
    have hany : ((groups.map (processGroup pc)).filterMap GroupOutcome.errOf ≠ []) ↔
        (groups.any fun g => ((processGroup pc g).errOf).isSome) = true := by
      rw [errOf_filterMap_ne_nil_iff]
      simp only [List.any_eq_true, List.mem_map]
      constructor
      · rintro ⟨x, ⟨a, hab, rfl⟩, hs⟩
        exact ⟨a, hab, hs⟩
      · rintro ⟨a, hab, hs⟩
        exact ⟨_, ⟨a, hab, rfl⟩, hs⟩
    by_cases hE : (groups.map (processGroup pc)).filterMap GroupOutcome.errOf = []
    · simp only [dif_pos hE]
      refine ⟨fun h => absurd rfl h, ?_, ?_⟩
      · rintro ⟨-, h⟩; exact absurd rfl h
      · intro h; exact absurd hE (hany.mpr h)
    · simp only [dif_neg hE]
      refine ⟨fun h => trivial, ?_, ?_⟩
      · rintro ⟨-, h⟩; exact hany.mp h
      · intro h; exact ⟨trivial, hany.mpr h⟩

/-- C6: When the owning-plugin lookup fails or yields no plugin for any
single requested metric, the grouping aborts with an error and
`CollectMetrics` returns exactly that one error and no metrics, with
nothing dispatched for the other requested metrics; and the grouping
aborts exactly when such a lookup miss exists in the request. -/
theorem collect_abort_on_lookup_miss (pc : PluginControl) (mts : List MetricRequest)
    (dl : Nat) :
    (∀ e, groupMetricTypesByPlugin pc.getPluginView mts = .error e →
      CollectMetrics pc mts dl = ([], [e])) ∧
    ((∃ e, groupMetricTypesByPlugin pc.getPluginView mts = .error e) ↔
      ∃ mt ∈ mts, getPluginFails pc.getPluginView mt = true) := by
  constructor
  · intro e he
    unfold CollectMetrics
    rw [he]
  · exact groupGo_error_iff pc.getPluginView mts []

/-- C7: After grouping succeeds the groups are processed independently:
each group's contribution to the dispatch loop is its standalone
processing, unaffected by its position or its siblings, and a group
whose pool resolution or instance selection fails contributes exactly
its own error to the aggregated error list while every other group's
outcome (and error, if any) is preserved. -/
theorem collect_per_group_independence (pc : PluginControl)
    (gs1 gs2 : GroupedRequests) (g : String × PluginMetricTypes) :
    collectLoop pc (gs1 ++ g :: gs2) =
      collectLoop pc gs1 ++ processGroup pc g :: collectLoop pc gs2 ∧
    (∀ e, processGroup pc g = .stageErr e →
      (aggregate (collectLoop pc (gs1 ++ g :: gs2)) [] []).2 =
        (collectLoop pc gs1).filterMap GroupOutcome.errOf ++
          e :: (collectLoop pc gs2).filterMap GroupOutcome.errOf) := by
  constructor
  · simp [collectLoop_eq_map]
  · intro e he
    rw [aggregate_snd]
    simp [collectLoop_eq_map, List.filterMap_append, List.filterMap_cons, he,
      GroupOutcome.errOf]

/-- C10: For every deadline value, calling `CollectMetrics` with an empty
requested metric set returns no metrics and no errors, the grouping
being empty and no work dispatched. -/
theorem collect_empty_request (pc : PluginControl) (dl : Nat) :
    CollectMetrics pc [] dl = ([], []) ∧
    groupMetricTypesByPlugin pc.getPluginView [] = .ok [] ∧
    collectLoop pc [] = [] := ⟨rfl, rfl, rfl⟩

/-- C3: When `SwapPlugins` loads the new plugin successfully and the
unload of the old one fails, the just-loaded plugin is unloaded as a
rollback; if the rollback succeeds the original unload error is returned
and the old plugin is still registered; if the rollback also fails the
returned single error is the concatenation of the rollback error and the
original unload error, so neither is dropped (and the old plugin is
still registered). -/
theorem swap_rollback (pc : PluginControl) (inPath : String) (out lp : LoadedPlugin)
    (e : Err) (hload : pc.oracle.loadOutcome inPath = .ok lp)
    (hout : pc.oracle.unloadOutcome out = some e)
    (hmem : out ∈ pc.registry) (hne : lp.Key ≠ out.Key) :
    (pc.oracle.unloadOutcome lp = none →
      (SwapPlugins pc inPath out).err = some e ∧
      out ∈ (SwapPlugins pc inPath out).ctl.registry) ∧
    (∀ e2, pc.oracle.unloadOutcome lp = some e2 →
      (SwapPlugins pc inPath out).err =
        some ("failed to rollback after error" ++ e2 ++ " -- " ++ e) ∧
      out ∈ (SwapPlugins pc inPath out).ctl.registry) := by
  constructor
  · intro hroll
    simp only [SwapPlugins, loadPlugin, unloadPlugin, hload, hout, hroll]
    refine ⟨trivial, ?_⟩
    refine List.mem_filter.mpr ⟨List.mem_cons_of_mem lp hmem, ?_⟩
    exact bne_iff_ne.mpr (fun h => hne h.symm)
  · intro e2 hroll
    simp only [SwapPlugins, loadPlugin, unloadPlugin, hload, hout, hroll]
    exact ⟨trivial, List.mem_cons_of_mem lp hmem⟩

/-- C3 witness: the concrete swap scenario in which loading "pb" yields
`swapIn`, unloading `swapOut` fails and the rollback succeeds: the
original unload error is returned and `swapOut` is still registered. -/
theorem swap_rollback_witness :
    (SwapPlugins swapCtl "pb" swapOut).err = some "unload failed" ∧
    swapOut ∈ (SwapPlugins swapCtl "pb" swapOut).ctl.registry :=
  (swap_rollback swapCtl "pb" swapOut swapIn "unload failed" rfl rfl
    (List.Mem.head _) (by decide)).1 rfl

/-- C2 counterexample: in a facade state that is not started, `Unload`
returns no error and removes the plugin from the registry, so the claim
that every mutating operation besides Start and Stop errors out before
`Start()` is false on the code. -/
theorem unload_ignores_started_cex :
    cexCtl.Started = false ∧ (Unload cexCtl cexPlugin).err = none ∧
    (Unload cexCtl cexPlugin).ctl.registry.length = 0 := ⟨rfl, rfl, rfl⟩

/-- C2 (amended): only `Load` requires the started state — called on a
non-started facade it returns the error "Must start Controller before
calling Load()" and changes nothing — while `Unload`, `SwapPlugins`,
`SubscribeMetricType`, `SubscribePublisher` and `UnsubscribeMetricType`
never consult the started flag: their observable behaviour is identical
whatever the flag's value. -/
theorem only_load_checks_started (pc : PluginControl) (b : Bool)
    (path inPath : String) (pl out : LoadedPlugin) (mt mt2 : MetricRequest)
    (cd : ConfigTable) (name : String) (ver : Int) (config : ConfigTable) :
    (pc.Started = false →
      Load pc path = ⟨some "Must start Controller before calling Load()", pc, []⟩) ∧
    (Unload { pc with Started := b } pl).obs = (Unload pc pl).obs ∧
    (SwapPlugins { pc with Started := b } inPath out).obs =
      (SwapPlugins pc inPath out).obs ∧
    (SubscribeMetricType { pc with Started := b } mt cd).obs =
      (SubscribeMetricType pc mt cd).obs ∧
    (SubscribePublisher { pc with Started := b } name ver config).obs =
      (SubscribePublisher pc name ver config).obs ∧
    (UnsubscribeMetricType { pc with Started := b } mt2).obs =
      (UnsubscribeMetricType pc mt2).obs := by
  refine ⟨fun h => by simp [Load, h], ?_, ?_, ?_, ?_, ?_⟩
  · cases h : pc.oracle.unloadOutcome pl <;>
      simp [Unload, unloadPlugin, OpResult.obs, h]
  · cases hl : pc.oracle.loadOutcome inPath with
    | error e => simp [SwapPlugins, loadPlugin, OpResult.obs, hl]
    | ok lp =>
      cases ho : pc.oracle.unloadOutcome out with
      | some e =>
        cases hr : pc.oracle.unloadOutcome lp <;>
          simp [SwapPlugins, loadPlugin, unloadPlugin, OpResult.obs, hl, ho, hr]
      | none => simp [SwapPlugins, loadPlugin, unloadPlugin, OpResult.obs, hl, ho]
  · cases hf : catalogFindIdx pc.catalog mt.ns mt.ver with
    | none => simp [SubscribeMetricType, SubResult.obs, hf]
    | some i =>
      cases hgi : pc.catalog[i]? with
      | none => simp [SubscribeMetricType, SubResult.obs, hf, hgi]
      | some m =>
        cases hp : m.policy cd with
        | mk ncd errs =>
          cases errs <;> simp [SubscribeMetricType, SubResult.obs, hf, hgi, hp]
  · cases hf : findLastLoaded pc.registry name ver with
    | none => simp [SubscribePublisher, PubResult.obs, hf]
    | some lp =>
      cases hp : lp.configPolicy config with
      | mk ncd errs =>
        cases errs <;> simp [SubscribePublisher, PubResult.obs, hf, hp]
  · cases hu : catUnsubscribe pc.catalog mt2.ns mt2.ver <;>
      simp [UnsubscribeMetricType, UnsubResult.obs, hu]

/-- C5: `SubscribeMetricType` is all-or-nothing: when the resolved
metric's config-policy reports errors the call returns no metric and
exactly those errors, the facade state (stored config and subscription
counter included) is unchanged and no event is emitted; only when the
policy reports no errors is the normalized config attached, the
subscription counter incremented, the catalog updated in place and the
subscription event emitted. -/
theorem subscribe_all_or_nothing (pc : PluginControl) (mt : MetricRequest)
    (cd : ConfigTable) (i : Nat) (m : MetricTypeRec)
    (hidx : catalogFindIdx pc.catalog mt.ns mt.ver = some i)
    (hm : pc.catalog[i]? = some m) :
    ((m.policy cd).2 ≠ [] →
      SubscribeMetricType pc mt cd = ⟨none, (m.policy cd).2, pc, []⟩) ∧
    ((m.policy cd).2 = [] →
      SubscribeMetricType pc mt cd =
        ⟨some (subscribedRec m (m.policy cd).1), [],
         { pc with catalog := pc.catalog.set i (subscribedRec m (m.policy cd).1) },
         [.MetricSubscriptionEvent m.ns m.version]⟩) := by
  constructor
  · intro herr
    unfold SubscribeMetricType
    rw [hidx]
    simp only [hm]
    cases hp : m.policy cd with
    | mk ncd errs =>
      rw [hp] at herr
      cases errs with
      | nil => exact absurd rfl herr
      | cons e es => simp [hp]
  · intro hok
    unfold SubscribeMetricType
    rw [hidx]
    simp only [hm]
    cases hp : m.policy cd with
    | mk ncd errs =>
      rw [hp] at hok
      cases hok
      simp [hp, subscribedRec]

/-- C5 witness: the concrete subscription scenario in which the policy
of the catalogued metric rejects the supplied config: the validation
errors are returned and the facade state is unchanged. -/
theorem subscribe_all_or_nothing_witness :
    SubscribeMetricType subCtl ⟨["cpu"], 1⟩ [] =
      ⟨none, ["invalid config"], subCtl, []⟩ :=
  (subscribe_all_or_nothing subCtl ⟨["cpu"], 1⟩ [] 0 subMetric rfl rfl).1 (by decide)

/-- C8: each mutating facade operation emits its notification event
exactly when it completes successfully — `Load`, `Unload` and
`SwapPlugins` emit their event exactly when no error is returned;
`SubscribeMetricType` and `SubscribePublisher` emit exactly when the
returned error list is empty; `UnsubscribeMetricType` emits exactly when
the catalog does not signal an error (on which the Go code panics). -/
theorem events_iff_success (pc : PluginControl) (path inPath : String)
    (pl out : LoadedPlugin) (mt mt2 : MetricRequest) (cd : ConfigTable)
    (name : String) (ver : Int) (config : ConfigTable) :
    ((Load pc path).events =
      if (Load pc path).err = none then [Event.LoadPluginEvent] else []) ∧
    ((Unload pc pl).events =
      if (Unload pc pl).err = none then [Event.UnloadPluginEvent] else []) ∧
    ((SwapPlugins pc inPath out).events =
      if (SwapPlugins pc inPath out).err = none then [Event.SwapPluginsEvent] else []) ∧
    ((SubscribeMetricType pc mt cd).errs ≠ [] →
      (SubscribeMetricType pc mt cd).events = []) ∧
    ((SubscribeMetricType pc mt cd).errs = [] →
      ∃ n v, (SubscribeMetricType pc mt cd).events = [Event.MetricSubscriptionEvent n v]) ∧
    ((SubscribePublisher pc name ver config).errs ≠ [] →
      (SubscribePublisher pc name ver config).events = []) ∧
    ((SubscribePublisher pc name ver config).errs = [] →
      (SubscribePublisher pc name ver config).events =
        [Event.PublisherSubscriptionEvent name ver]) ∧
    ((UnsubscribeMetricType pc mt2).fatal ≠ none →
      (UnsubscribeMetricType pc mt2).events = []) ∧
    ((UnsubscribeMetricType pc mt2).fatal = none →
      (UnsubscribeMetricType pc mt2).events = [Event.MetricUnsubscriptionEvent mt2.ns]) := by
  refine ⟨?_, ?_, ?_, ?_, ?_, ?_, ?_, ?_, ?_⟩
  · cases hs : pc.Started with
    | false => simp [Load, hs]
    | true =>
      cases hl : pc.oracle.loadOutcome path <;> simp [Load, loadPlugin, hs, hl]
  · cases h : pc.oracle.unloadOutcome pl <;> simp [Unload, unloadPlugin, h]
  · cases hl : pc.oracle.loadOutcome inPath with
    | error e => simp [SwapPlugins, loadPlugin, hl]
    | ok lp =>
      cases ho : pc.oracle.unloadOutcome out with
      | some e =>
        cases hr : pc.oracle.unloadOutcome lp <;>
          simp [SwapPlugins, loadPlugin, unloadPlugin, hl, ho, hr]
      | none => simp [SwapPlugins, loadPlugin, unloadPlugin, hl, ho]
  · cases hf : catalogFindIdx pc.catalog mt.ns mt.ver with
    | none => intro h; simp [SubscribeMetricType, hf]
    | some i =>
      cases hgi : pc.catalog[i]? with
      | none => intro h; simp [SubscribeMetricType, hf, hgi]
      | some m =>
        cases hp : m.policy cd with
        | mk ncd errs =>
          cases errs <;> simp [SubscribeMetricType, hf, hgi, hp]
  · cases hf : catalogFindIdx pc.catalog mt.ns mt.ver with
    | none => intro h; exact absurd h (by simp [SubscribeMetricType, hf])
    | some i =>
      cases hgi : pc.catalog[i]? with
      | none => intro h; exact absurd h (by simp [SubscribeMetricType, hf, hgi])
      | some m =>
        cases hp : m.policy cd with
        | mk ncd errs =>
          cases errs with
          | nil =>
            intro h
            exact ⟨m.ns, m.version, by simp [SubscribeMetricType, hf, hgi, hp]⟩
          | cons e es =>
            intro h
            exact absurd h (by simp [SubscribeMetricType, hf, hgi, hp])
  · cases hf : findLastLoaded pc.registry name ver with
    | none => intro h; simp [SubscribePublisher, hf]
    | some lp =>
      cases hp : lp.configPolicy config with
      | mk ncd errs => cases errs <;> simp [SubscribePublisher, hf, hp]
  · cases hf : findLastLoaded pc.registry name ver with
    | none => intro h; exact absurd h (by simp [SubscribePublisher, hf])
    | some lp =>
      cases hp : lp.configPolicy config with
      | mk ncd errs =>
        cases errs with
        | nil => intro h; simp [SubscribePublisher, hf, hp]
        | cons e es =>
          intro h
          exact absurd h (by simp [SubscribePublisher, hf, hp])
  · cases hu : catUnsubscribe pc.catalog mt2.ns mt2.ver <;>
      simp [UnsubscribeMetricType, hu]
  · cases hu : catUnsubscribe pc.catalog mt2.ns mt2.ver <;>
      simp [UnsubscribeMetricType, hu]

/-- C9: `SubscribePublisher` never mutates the facade state: whatever
the lookup and validation outcome, the successor state is the input
state — in particular no subscription counter, catalog entry or registry
entry changes, on success or on failure. -/
theorem subscribePublisher_no_mutation (pc : PluginControl) (name : String)
    (ver : Int) (config : ConfigTable) :
    (SubscribePublisher pc name ver config).ctl = pc := by
  unfold SubscribePublisher
  cases findLastLoaded pc.registry name ver with
  | none => rfl
  | some lp =>
    cases hp : lp.configPolicy config with
    | mk ncd errs => cases errs <;> simp [hp]

/-- C4 evidence: with a single plugin group whose only instance returns
the metric list ["m1"] once, `CollectMetrics` returns that list twice —
the dispatched unit first writes its result into the enclosing call's
shared `metrics` named-return variable (control.go:371) and the
aggregator then appends the same list received on the channel
(control.go:386), so a concurrent unit does write the shared result
directly, contradicting the claim. -/
theorem collect_shared_write_duplicates :
    CollectMetrics raceCtl [⟨["cpu", "temp"], -1⟩] 0 = (["m1", "m1"], []) := by decide

end Control
